import Mathlib

/-!
Verification development for the ZAP Quantum Vault diagnostic scripts
(`check_database.py` and `test_trust_levels.py`).

The two scripts operate on a single-file SQLite credential store with three
tables (`users`, `usb_drive_trust`, `usb_drive_passwords`).  We embed the
store as explicit lists of rows plus table-existence flags, embed the two
scripts as pure functions from a store to a run result (final store, output
events, operation trace, whether the connection was closed), and embed the
path locator `find_database` over an abstract filesystem.
-/

namespace ZapVault

/-- A row of `usb_drive_trust`:
`(id, user_id, drive_id, device_path, drive_label, trust_level, created_at, updated_at)`. -/
structure TrustRow where
  id : String
  user_id : String
  drive_id : String
  device_path : String
  drive_label : String
  trust_level : String
  created_at : String
  updated_at : String
deriving DecidableEq, Repr

/-- A row of `usb_drive_passwords`:
`(id, user_id, drive_id, device_path, drive_label, encrypted_password, password_hint, created_at, updated_at)`. -/
structure PasswordRow where
  id : String
  user_id : String
  drive_id : String
  device_path : String
  drive_label : String
  encrypted_password : String
  password_hint : String
  created_at : String
  updated_at : String
deriving DecidableEq, Repr

/-- A row of `users`: `(id, username, email, ...)` (only the three columns the
scripts touch). -/
structure UserRow where
  id : String
  username : String
  email : String
deriving DecidableEq, Repr

/-- A state of the credential store: which of the three expected tables exist,
their rows (in rowid order), and the names of any further tables present. -/
structure Store where
  hasTrustTable : Bool
  hasPwdTable : Bool
  hasUsersTable : Bool
  trustRows : List TrustRow
  pwdRows : List PasswordRow
  userRows : List UserRow
  otherTables : List String
deriving DecidableEq, Repr

/-- The catalog of table definitions (`SELECT name FROM sqlite_master WHERE
type='table'`): the names of the tables present in the store. -/
def Store.tables (s : Store) : List String :=
  (if s.hasPwdTable then ["usb_drive_passwords"] else []) ++
  (if s.hasTrustTable then ["usb_drive_trust"] else []) ++
  (if s.hasUsersTable then ["users"] else []) ++
  s.otherTables

/-- Modelled from the spec: the trust-table schema is created by the vault
application, whose sources are not supplied; per the spec it declares primary
key `id` with `(user_id, drive_id)` intended unique, the latter "enforced via
upsert semantics (replace-on-conflict)".  A candidate row therefore conflicts
with an incoming row when it matches on `id` or on the `(user_id, drive_id)`
pair. -/
def trustConflict (q r : TrustRow) : Bool :=
  q.id == r.id || (q.user_id == r.user_id && q.drive_id == r.drive_id)

/-- Modelled from the spec: same conflict rule for `usb_drive_passwords`
(primary key `id`, `(user_id, drive_id)` intended unique). -/
def pwdConflict (q r : PasswordRow) : Bool :=
  q.id == r.id || (q.user_id == r.user_id && q.drive_id == r.drive_id)

/-- `INSERT OR REPLACE INTO usb_drive_trust ...`: every pre-existing row that
conflicts with the incoming row on a uniqueness constraint is deleted, then
the incoming row is inserted (SQLite gives it a fresh maximal rowid, so it
goes last). -/
def upsertTrust (rows : List TrustRow) (r : TrustRow) : List TrustRow :=
  rows.filter (fun q => !trustConflict q r) ++ [r]

/-- `INSERT OR REPLACE INTO usb_drive_passwords ...`, same semantics. -/
def upsertPwd (rows : List PasswordRow) (r : PasswordRow) : List PasswordRow :=
  rows.filter (fun q => !pwdConflict q r) ++ [r]

/-- Python's `s.replace('usb_', '')` on the character list: remove every
non-overlapping occurrence of `usb_`, scanning left to right. -/
def stripUsbChars : List Char → List Char
  | 'u' :: 's' :: 'b' :: '_' :: rest => stripUsbChars rest
  | c :: rest => c :: stripUsbChars rest
  | [] => []

/-- `f"/dev/{drive_id.replace('usb_', '')}"` — the device-path derivation used
by `test_trust_levels` for both records. -/
def devicePath (driveId : String) : String :=
  "/dev/" ++ String.mk (stripUsbChars driveId.toList)

/-- The TrustRecord built by `test_trust_levels` for drive `d` at time `now`:
`(f"trust_{d}", "admin", d, f"/dev/{d.replace('usb_', '')}", "TEST_DRIVE", "trusted", now, now)`. -/
def mkTrustRecord (d now : String) : TrustRow :=
  { id := "trust_" ++ d
    user_id := "admin"
    drive_id := d
    device_path := devicePath d
    drive_label := "TEST_DRIVE"
    trust_level := "trusted"
    created_at := now
    updated_at := now }

/-- The PasswordRecord built by `test_trust_levels` for drive `d` at time `now`:
`(f"pwd_{d}", "admin", d, f"/dev/{d.replace('usb_', '')}", "TEST_DRIVE", "encrypted_test_password", "test hint", now, now)`. -/
def mkPwdRecord (d now : String) : PasswordRow :=
  { id := "pwd_" ++ d
    user_id := "admin"
    drive_id := d
    device_path := devicePath d
    drive_label := "TEST_DRIVE"
    encrypted_password := "encrypted_test_password"
    password_hint := "test hint"
    created_at := now
    updated_at := now }

/-- The timestamp hard-coded in `test_trust_levels` (`now = "2025-09-01T15:54:00Z"`). -/
def testNow : String := "2025-09-01T15:54:00Z"

/-- The drive identifier hard-coded in `test_trust_levels` (`test_drive_id = "usb_sde1"`). -/
def testDriveId : String := "usb_sde1"

/-- The store operations `test_trust_levels` attempts through its cursor, in
program order.  An operation on a missing table raises, which the script's
single `except` clause catches. -/
inductive TOp where
  | insertTrust
  | selectTrust
  | insertPwd
  | countTrust
  | countPwd
deriving DecidableEq, Repr

/-- The console output events of `test_trust_levels` (formatting aside). -/
inductive TOut where
  | insertedTrust
  | trustFound (row : TrustRow)
  | trustNotFound
  | insertedPwd
  | status (trustCount pwdCount : Nat)
  | opFailed (msg : String)
deriving DecidableEq, Repr

/-- Result of one run of `test_trust_levels` after the connection is opened:
the final store, the output events, the trace of attempted store operations,
and whether `conn.close()` ran. -/
structure TRun where
  store : Store
  output : List TOut
  trace : List TOp
  connClosed : Bool
deriving DecidableEq, Repr

/-- The body of `test_trust_levels` from the point the connection is open:
upsert a TrustRecord, commit, re-read it by `drive_id` (`fetchone`), upsert a
PasswordRecord, commit, then report `COUNT(*)` of both tables.  The whole
sequence sits in one `try` block whose `except` reports the failure message,
and the `finally` clause always closes the connection.  An operation on a
missing table raises `no such table`. -/
def test_trust_levels (s : Store) : TRun :=
  if !s.hasTrustTable then
    { store := s
      output := [.opFailed "no such table: usb_drive_trust"]
      trace := [.insertTrust]
      connClosed := true }
  else
    let s1 : Store := { s with trustRows := upsertTrust s.trustRows (mkTrustRecord testDriveId testNow) }
    let found := (s1.trustRows.filter (fun r => r.drive_id == testDriveId)).head?
    let foundOut : TOut := match found with
      | some r => .trustFound r
      | none => .trustNotFound
    if !s.hasPwdTable then
      { store := s1
        output := [.insertedTrust, foundOut, .opFailed "no such table: usb_drive_passwords"]
        trace := [.insertTrust, .selectTrust, .insertPwd]
        connClosed := true }
    else
      let s2 : Store := { s1 with pwdRows := upsertPwd s1.pwdRows (mkPwdRecord testDriveId testNow) }
      { store := s2
        output := [.insertedTrust, foundOut, .insertedPwd,
                   .status s2.trustRows.length s2.pwdRows.length]
        trace := [.insertTrust, .selectTrust, .insertPwd, .countTrust, .countPwd]
        connClosed := true }

/-- The projection of a password row selected by the inspector's sampled-rows
query: `SELECT id, user_id, drive_id, device_path, drive_label, password_hint,
created_at, updated_at` — `encrypted_password` is not selected. -/
structure PwdSample where
  id : String
  user_id : String
  drive_id : String
  device_path : String
  drive_label : String
  password_hint : String
  created_at : String
  updated_at : String
deriving DecidableEq, Repr

/-- Project a stored password row onto the columns the inspector samples. -/
def projectPwd (r : PasswordRow) : PwdSample :=
  { id := r.id
    user_id := r.user_id
    drive_id := r.drive_id
    device_path := r.device_path
    drive_label := r.drive_label
    password_hint := r.password_hint
    created_at := r.created_at
    updated_at := r.updated_at }

/-- Insert a sampled row into a list kept in descending `created_at` order. -/
def insertByCreatedDesc (r : PwdSample) : List PwdSample → List PwdSample
  | [] => [r]
  | q :: t => if q.created_at ≤ r.created_at then r :: q :: t else q :: insertByCreatedDesc r t

/-- `ORDER BY created_at DESC LIMIT 5` applied to the sampled rows. -/
def sampleRecent (rows : List PwdSample) : List PwdSample :=
  (rows.foldr insertByCreatedDesc []).take 5

/-- Modelled from the spec: the column list `PRAGMA table_info` reports for
`usb_drive_passwords` — the table is created by the vault application, whose
sources are not supplied; the spec fixes its columns. -/
def pwdTableColumns : List (String × String) :=
  [("id", "TEXT"), ("user_id", "TEXT"), ("drive_id", "TEXT"),
   ("device_path", "TEXT"), ("drive_label", "TEXT"),
   ("encrypted_password", "TEXT"), ("password_hint", "TEXT"),
   ("created_at", "TEXT"), ("updated_at", "TEXT")]

/-- The store queries `check_database` issues, in program order. -/
inductive CQuery where
  | catalogLookup (table : String)
  | catalogListTables
  | tableInfo (table : String)
  | dataQuery (table : String)
deriving DecidableEq, Repr

/-- The console output events of `check_database` after the store is found. -/
inductive COut where
  | pwdTableMissing
  | availableTable (name : String)
  | pwdTableExists
  | column (name ty : String)
  | pwdCount (n : Nat)
  | entry (row : PwdSample)
  | userCount (n : Nat)
  | sampleUser (username email : String)
  | dbError (msg : String)
deriving DecidableEq, Repr

/-- Result of one run of `check_database` after the connection is opened. -/
structure CRun where
  output : List COut
  trace : List CQuery
  connClosed : Bool
deriving DecidableEq, Repr

/-- The body of `check_database` from the point the connection is open: one
catalog lookup for `usb_drive_passwords`; if absent, enumerate all tables;
if present, report its columns, `COUNT(*)`, and (when non-empty) up to five
most-recent sampled rows.  Then — in either branch — `COUNT(*)` and a
three-row sample of `users` without any prior existence check, and finally
`conn.close()`.  The `try` block covers everything including the `close`, so
a failure (here: `users` missing) prints a database error and leaves the
connection open. -/
def check_database (s : Store) : CRun :=
  let pwdPart : List COut × List CQuery :=
    if !s.hasPwdTable then
      ([.pwdTableMissing] ++ s.tables.map .availableTable,
       [.catalogLookup "usb_drive_passwords", .catalogListTables])
    else
      (([.pwdTableExists] ++ pwdTableColumns.map (fun c => .column c.1 c.2) ++
        [.pwdCount s.pwdRows.length] ++
        (if s.pwdRows.length > 0 then
          (sampleRecent (s.pwdRows.map projectPwd)).map .entry
        else [])),
       ([.catalogLookup "usb_drive_passwords", .tableInfo "usb_drive_passwords",
         .dataQuery "usb_drive_passwords"] ++
        (if s.pwdRows.length > 0 then [.dataQuery "usb_drive_passwords"] else [])))
  if !s.hasUsersTable then
    { output := pwdPart.1 ++ [.dbError "no such table: users"]
      trace := pwdPart.2 ++ [.dataQuery "users"]
      connClosed := false }
  else
    { output := pwdPart.1 ++ [.userCount s.userRows.length] ++
                (s.userRows.take 3).map (fun u => .sampleUser u.username u.email)
      trace := pwdPart.2 ++ [.dataQuery "users", .dataQuery "users"]
      connClosed := true }

/-- An abstract filesystem for the locator: which paths exist, and what each
glob pattern matches (in the traversal order the glob library yields). -/
structure FS where
  fileExists : String → Bool
  glob : String → List String

/-- The fixed candidate paths of `find_database`, in probe order. -/
def possible_paths (home cwd : String) : List String :=
  [home ++ "/.local/share/com.zap-vault/vault.db",
   home ++ "/.local/share/zap-vault/vault.db",
   home ++ "/.config/zap-vault/vault.db",
   "/tmp/vault.db",
   cwd ++ "/vault.db",
   cwd ++ "/src-tauri/vault.db"]

/-- The fixed glob patterns of `find_database`, in search order. -/
def search_patterns (home cwd : String) : List String :=
  [home ++ "/.local/share/**/vault.db",
   home ++ "/.config/**/vault.db",
   "/tmp/**/vault.db",
   cwd ++ "/**/vault.db"]

/-- `find_database`: probe the fixed candidate paths in order and return the
first that exists; otherwise return the first match of the first glob pattern
that matches anything; otherwise `None`. -/
def find_database (home cwd : String) (fs : FS) : Option String :=
  match (possible_paths home cwd).find? (fun p => fs.fileExists p) with
  | some p => some p
  | none => (search_patterns home cwd).findSome? (fun pat => (fs.glob pat).head?)

/-- Two trust rows that can coexist in a store whose schema enforces the
uniqueness constraints: distinct `id`s and distinct `(user_id, drive_id)`
pairs. -/
def TrustDistinct (a b : TrustRow) : Prop :=
  a.id ≠ b.id ∧ (a.user_id ≠ b.user_id ∨ a.drive_id ≠ b.drive_id)

/-- Well-formedness of the trust table: the schema's uniqueness constraints
hold, so every SQLite-reachable store state satisfies this. -/
def TrustWF (rows : List TrustRow) : Prop :=
  rows.Pairwise TrustDistinct

/-- Recognise the existence-lookup catalog queries in an inspector trace. -/
def isCatalogLookupQ : CQuery → Bool
  | .catalogLookup _ => true
  | _ => false

/-- Recognise the table-enumeration lines in an inspector report. -/
def isAvailTableOut : COut → Bool
  | .availableTable _ => true
  | _ => false

/-- Modelled from the spec's words, for comparison with the code's
`devicePath`: strip the fixed leading `usb_` from the front of the drive
identifier, preserving all other characters. -/
def stripFrontUsb : List Char → List Char
  | 'u' :: 's' :: 'b' :: '_' :: rest => rest
  | l => l

/-- The spec's device-path derivation: `/dev/` plus the identifier with the
fixed front occurrence of `usb_` stripped. -/
def specDevicePathOfId (d : String) : String :=
  "/dev/" ++ String.mk (stripFrontUsb d.toList)

/-- Lexicographic strict order on character lists. -/
def charListLt : List Char → List Char → Bool
  | [], [] => false
  | [], _ :: _ => true
  | _ :: _, [] => false
  | a :: as, b :: bs => if a < b then true else if b < a then false else charListLt as bs

/-- Strict order on ISO-8601 UTC timestamps: lexicographic string order, which
on this fixed-width format agrees with chronological order. -/
def timeLt (a b : String) : Bool := charListLt a.data b.data

/-- Two stores identical except for the values stored in the
`encrypted_password` column of `usb_drive_passwords`. -/
def SameExceptCipher (s1 s2 : Store) : Prop :=
  s1.hasTrustTable = s2.hasTrustTable ∧ s1.hasPwdTable = s2.hasPwdTable ∧
  s1.hasUsersTable = s2.hasUsersTable ∧ s1.trustRows = s2.trustRows ∧
  s1.userRows = s2.userRows ∧ s1.otherTables = s2.otherTables ∧
  List.Forall₂ (fun a b => projectPwd a = projectPwd b) s1.pwdRows s2.pwdRows

/-- An abstract filesystem with no existing file and no glob match. -/
def emptyFS : FS :=
  { fileExists := fun _ => false, glob := fun _ => [] }

/-- An abstract filesystem where exactly `/tmp/vault.db` exists, while the
glob patterns would also yield a (different) match. -/
def oneFileFS : FS :=
  { fileExists := fun s => s == "/tmp/vault.db", glob := fun _ => ["/elsewhere/vault.db"] }

/-- A store whose password table holds a row for drive `usb_sde1` owned by a
different user (`bob`); all three tables exist. -/
def storeWithBobRow : Store :=
  { hasTrustTable := true, hasPwdTable := true, hasUsersTable := true
    trustRows := []
    pwdRows := [{ id := "x", user_id := "bob", drive_id := "usb_sde1",
                  device_path := "/dev/sde1", drive_label := "BOBS",
                  encrypted_password := "ct", password_hint := "bob hint",
                  created_at := "2025-01-01T00:00:00Z", updated_at := "2025-01-01T00:00:00Z" }]
    userRows := [], otherTables := [] }

/-- A store whose password table holds rows for `admin` on drive `usb_sde1`
and for `bob` on a different drive; all three tables exist. -/
def storeAdminOnly : Store :=
  { hasTrustTable := true, hasPwdTable := true, hasUsersTable := true
    trustRows := []
    pwdRows := [{ id := "old", user_id := "admin", drive_id := "usb_sde1",
                  device_path := "/dev/sde1", drive_label := "OLD",
                  encrypted_password := "ct0", password_hint := "old hint",
                  created_at := "2025-01-01T00:00:00Z", updated_at := "2025-01-01T00:00:00Z" },
                { id := "y", user_id := "bob", drive_id := "usb_sdf1",
                  device_path := "/dev/sdf1", drive_label := "BOBS",
                  encrypted_password := "ct1", password_hint := "bob hint",
                  created_at := "2025-01-02T00:00:00Z", updated_at := "2025-01-02T00:00:00Z" }]
    userRows := [], otherTables := [] }

/-- A store already holding the verifier's trust record, so a re-run replaces
rather than adds; all three tables exist. -/
def storePreseeded : Store :=
  { hasTrustTable := true, hasPwdTable := true, hasUsersTable := true
    trustRows := [mkTrustRecord testDriveId "2025-01-01T00:00:00Z"]
    pwdRows := [], userRows := [], otherTables := [] }

/-- A store with no conflicting rows in either table; all three tables exist. -/
def storeFresh : Store :=
  { hasTrustTable := true, hasPwdTable := true, hasUsersTable := true
    trustRows := [{ id := "t9", user_id := "carol", drive_id := "usb_sdz9",
                    device_path := "/dev/sdz9", drive_label := "Z",
                    trust_level := "untrusted",
                    created_at := "2024-01-01T00:00:00Z", updated_at := "2024-01-01T00:00:00Z" }]
    pwdRows := [], userRows := [], otherTables := [] }

/-- A store lacking `usb_drive_trust` but with the other two tables. -/
def storeNoTrustTable : Store :=
  { hasTrustTable := false, hasPwdTable := true, hasUsersTable := true
    trustRows := [], pwdRows := []
    userRows := [{ id := "u1", username := "alice", email := "alice@example.com" }]
    otherTables := [] }

/-- A store lacking the `users` table, with `usb_drive_passwords` present. -/
def storeNoUsersTable : Store :=
  { hasTrustTable := true, hasPwdTable := true, hasUsersTable := false
    trustRows := [], pwdRows := [], userRows := [], otherTables := [] }

/-- A store lacking `usb_drive_passwords` (and `usb_drive_trust`), with
`users` present. -/
def storeNoPwdTable : Store :=
  { hasTrustTable := false, hasPwdTable := false, hasUsersTable := true
    trustRows := [], pwdRows := []
    userRows := [{ id := "u1", username := "alice", email := "alice@example.com" }]
    otherTables := ["vaults"] }

/-- A pair of stores differing only in stored ciphertext values. -/
def storeCipherA : Store :=
  { hasTrustTable := true, hasPwdTable := true, hasUsersTable := true
    trustRows := []
    pwdRows := [{ id := "p1", user_id := "admin", drive_id := "usb_sde1",
                  device_path := "/dev/sde1", drive_label := "L",
                  encrypted_password := "cipher-one", password_hint := "h",
                  created_at := "2025-01-01T00:00:00Z", updated_at := "2025-01-01T00:00:00Z" }]
    userRows := [{ id := "u1", username := "alice", email := "alice@example.com" }]
    otherTables := [] }

/-- Same as `storeCipherA` except for the `encrypted_password` value. -/
def storeCipherB : Store :=
  { storeCipherA with
    pwdRows := [{ id := "p1", user_id := "admin", drive_id := "usb_sde1",
                  device_path := "/dev/sde1", drive_label := "L",
                  encrypted_password := "cipher-two", password_hint := "h",
                  created_at := "2025-01-01T00:00:00Z", updated_at := "2025-01-01T00:00:00Z" }] }

end ZapVault

namespace ZapVault

/-! ### Helper lemmas -/

/-- Filtering a kept sublist by a property that forces exclusion yields `[]`. -/
lemma filter_filter_nil {α : Type} {l : List α} {p keep : α → Bool}
    (h : ∀ a ∈ l, p a = true → keep a = false) : (l.filter keep).filter p = [] := by
  rw [List.filter_eq_nil_iff]
  intro a ha hp
  obtain ⟨hal, hk⟩ := List.mem_filter.mp ha
  rw [h a hal hp] at hk
  exact Bool.false_ne_true hk

/-- After an upsert, the rows matching the inserted row's `id` are exactly the
inserted row. -/
lemma upsertTrust_filter_id (rows : List TrustRow) (r : TrustRow) :
    (upsertTrust rows r).filter (fun q => q.id == r.id) = [r] := by
  have h1 : (rows.filter (fun q => !trustConflict q r)).filter (fun q => q.id == r.id) = [] := by
    apply filter_filter_nil
    intro a _ hpa
    simp [trustConflict, hpa]
  simp [upsertTrust, List.filter_append, h1]

/-- An upsert preserves the trust table's uniqueness invariant. -/
lemma trustWF_upsert {rows : List TrustRow} (h : TrustWF rows) (r : TrustRow) :
    TrustWF (upsertTrust rows r) := by
  unfold TrustWF upsertTrust
  rw [List.pairwise_append]
  refine ⟨h.filter _, List.pairwise_singleton _ _, ?_⟩
  intro a ha b hb
  have hbr : b = r := List.mem_singleton.mp hb
  obtain ⟨-, hk⟩ := List.mem_filter.mp ha
  have hc : trustConflict a r = false := by
    cases hcc : trustConflict a r
    · rfl
    · rw [hcc] at hk; simp at hk
  simp only [trustConflict, Bool.or_eq_false_iff, Bool.and_eq_false_iff,
    beq_eq_false_iff_ne] at hc
  obtain ⟨hid, hpair⟩ := hc
  rw [hbr]
  exact ⟨hid, by tauto⟩

/-- After the verifier's password upsert, in a store whose rows for drive
`usb_sde1` all belong to `admin`, the rows matching `drive_id = 'usb_sde1'`
are exactly the inserted record. -/
lemma upsertPwd_filter_drive (rows : List PasswordRow) (now : String)
    (h : ∀ q ∈ rows, q.drive_id = "usb_sde1" → q.user_id = "admin") :
    (upsertPwd rows (mkPwdRecord testDriveId now)).filter
      (fun q => q.drive_id == "usb_sde1") = [mkPwdRecord testDriveId now] := by
  have h1 : (rows.filter (fun q => !pwdConflict q (mkPwdRecord testDriveId now))).filter
      (fun q => q.drive_id == "usb_sde1") = [] := by
    apply filter_filter_nil
    intro a ha hpa
    have hd : a.drive_id = "usb_sde1" := by simpa using hpa
    have hu : a.user_id = "admin" := h a ha hd
    simp [pwdConflict, mkPwdRecord, testDriveId, hd, hu]
  have hr : ((mkPwdRecord testDriveId now).drive_id == "usb_sde1") = true := by
    simp [mkPwdRecord, testDriveId]
  simp [upsertPwd, List.filter_append, h1, hr]

/-- `find?` returns the unique element satisfying the predicate. -/
lemma find?_eq_some_of_unique {α : Type} {l : List α} {p : α → Bool} {a : α}
    (ha : a ∈ l) (hpa : p a = true) (huniq : ∀ b ∈ l, p b = true → b = a) :
    l.find? p = some a := by
  induction l with
  | nil => cases ha
  | cons x t ih =>
    by_cases hx : p x = true
    · have hxa : x = a := huniq x (List.mem_cons_self x t) hx
      subst hxa
      exact List.find?_cons_of_pos t hx
    · rw [List.find?_cons_of_neg t hx]
      have hat : a ∈ t := by
        rcases List.mem_cons.mp ha with h1 | h1
        · rw [← h1] at hx; exact absurd hpa hx
        · exact h1
      exact ih hat (fun b hb hpb => huniq b (List.mem_cons_of_mem x hb) hpb)

/-- Table-enumeration lines survive the enumeration filter. -/
lemma filter_avail_map_avail (l : List String) :
    (l.map COut.availableTable).filter isAvailTableOut = l.map COut.availableTable :=
  List.filter_eq_self.mpr (by
    intro a ha
    obtain ⟨n, -, rfl⟩ := List.mem_map.mp ha
    rfl)

/-- User-sample lines are not table-enumeration lines. -/
lemma filter_avail_map_sample (l : List UserRow) :
    ((l.map (fun u => COut.sampleUser u.username u.email)).filter isAvailTableOut) = [] := by
  rw [List.filter_eq_nil_iff]
  intro a ha
  obtain ⟨u, -, rfl⟩ := List.mem_map.mp ha
  simp [isAvailTableOut]

/-- Sampled password entries are not table-enumeration lines. -/
lemma filter_avail_map_entry (l : List PwdSample) :
    ((l.map COut.entry).filter isAvailTableOut) = [] := by
  rw [List.filter_eq_nil_iff]
  intro a ha
  obtain ⟨r, -, rfl⟩ := List.mem_map.mp ha
  simp [isAvailTableOut]

/-- Pointwise equal projections give equal projected tables. -/
lemma map_projectPwd_eq {l1 l2 : List PasswordRow}
    (h : List.Forall₂ (fun a b => projectPwd a = projectPwd b) l1 l2) :
    l1.map projectPwd = l2.map projectPwd := by
  induction h with
  | nil => rfl
  | cons h1 _ ih => simp [h1, ih]

/-! ### Claim theorems -/

/-- C7: for every filesystem state in which no candidate path exists and no
glob pattern matches any file, the locator returns the explicit not-found
signal (`none`), and mere absence raises no exception (the locator is a total
function into `Option`). -/
theorem locator_not_found (home cwd : String) (fs : FS)
    (h1 : ∀ p ∈ possible_paths home cwd, fs.fileExists p = false)
    (h2 : ∀ pat ∈ search_patterns home cwd, fs.glob pat = []) :
    find_database home cwd fs = none := by
  unfold find_database
  have hf : (possible_paths home cwd).find? (fun p => fs.fileExists p) = none := by
    rw [List.find?_eq_none]
    intro x hx
    simp [h1 x hx]
  rw [hf]
  show (search_patterns home cwd).findSome? (fun pat => (fs.glob pat).head?) = none
  rw [List.findSome?_eq_none_iff]
  intro pat hpat
  rw [h2 pat hpat]
  rfl

/-- Witness for C7: on the filesystem with no files at all, the locator
returns `none`. -/
theorem locator_not_found_witness : find_database "/home/u" "/work" emptyFS = none :=
  locator_not_found "/home/u" "/work" emptyFS (fun _ _ => rfl) (fun _ _ => rfl)

/-- C8: for every filesystem state in which exactly one of the fixed candidate
paths exists, the locator returns that path — whatever the glob patterns
would match (the filesystem's glob behaviour is arbitrary here). -/
theorem locator_unique_candidate (home cwd : String) (fs : FS) (p : String)
    (hp : p ∈ possible_paths home cwd) (he : fs.fileExists p = true)
    (huniq : ∀ q ∈ possible_paths home cwd, fs.fileExists q = true → q = p) :
    find_database home cwd fs = some p := by
  unfold find_database
  rw [find?_eq_some_of_unique hp he huniq]

/-- Witness for C8: only `/tmp/vault.db` exists among the candidates, a glob
pattern would match another file, and the locator returns `/tmp/vault.db`. -/
theorem locator_unique_candidate_witness :
    find_database "/home/u" "/work" oneFileFS = some "/tmp/vault.db" :=
  locator_unique_candidate "/home/u" "/work" oneFileFS "/tmp/vault.db"
    (by decide) (by decide) (by decide)

/-- Counterexample for C9: the code derives `device_path` with
`drive_id.replace('usb_', '')`, which removes every occurrence of `usb_`, not
only a front occurrence: on drive identifier `usb_usb_1` the code yields
`/dev/1`, while stripping only the front occurrence (the claim's derivation)
yields `/dev/usb_1`. -/
theorem device_path_cex :
    (mkTrustRecord "usb_usb_1" testNow).device_path ≠ specDevicePathOfId "usb_usb_1" ∧
    (mkTrustRecord "usb_usb_1" testNow).device_path = "/dev/1" ∧
    specDevicePathOfId "usb_usb_1" = "/dev/usb_1" := by
  refine ⟨?_, rfl, rfl⟩
  decide

/-- C9 as amended: for every drive identifier, both the TrustRecord and the
PasswordRecord derive the same `device_path`, namely `/dev/` concatenated with
the identifier with every occurrence of `usb_` removed (left to right,
non-overlapping). -/
theorem device_path_derivation (d now : String) :
    (mkTrustRecord d now).device_path = "/dev/" ++ String.mk (stripUsbChars d.toList) ∧
    (mkPwdRecord d now).device_path = (mkTrustRecord d now).device_path :=
  ⟨rfl, rfl⟩

/-- Counterexample for C1: in a store whose password table holds a row for
drive `usb_sde1` owned by a different user, the verifier's upsert leaves two
rows matching `drive_id = 'usb_sde1'`, so the SELECT does not return exactly
one row. -/
theorem pwd_select_cex :
    ((test_trust_levels storeWithBobRow).store.pwdRows.filter
      (fun r => r.drive_id == "usb_sde1")).length ≠ 1 := by
  decide

/-- C1 as amended: for every store state in which both tables exist and every
`usb_drive_passwords` row for drive `usb_sde1` belongs to user `admin`, after
the upsert verifier commits its insert-or-replace of the PasswordRecord
`pwd_usb_sde1`, a SELECT on `usb_drive_passwords` with
`WHERE drive_id = 'usb_sde1'` in the same connection returns exactly one row —
the just-written record — and that row's `password_hint` equals `test hint`. -/
theorem pwd_write_then_read (s : Store) (ht : s.hasTrustTable = true)
    (hp : s.hasPwdTable = true)
    (h : ∀ r ∈ s.pwdRows, r.drive_id = "usb_sde1" → r.user_id = "admin") :
    (test_trust_levels s).store.pwdRows.filter (fun r => r.drive_id == "usb_sde1")
        = [mkPwdRecord testDriveId testNow]
    ∧ ((test_trust_levels s).store.pwdRows.filter (fun r => r.drive_id == "usb_sde1")).length = 1
    ∧ (mkPwdRecord testDriveId testNow).password_hint = "test hint" := by
  have hrows : (test_trust_levels s).store.pwdRows
      = upsertPwd s.pwdRows (mkPwdRecord testDriveId testNow) := by
    simp [test_trust_levels, ht, hp]
  rw [hrows, upsertPwd_filter_drive s.pwdRows testNow h]
  exact ⟨rfl, rfl, rfl⟩

/-- Witness for C1 (amended): on a store whose `usb_sde1` password rows all
belong to `admin` (one stale `admin` row plus an unrelated `bob` row), the
verifier's run leaves exactly the fresh record as the `usb_sde1` selection. -/
theorem pwd_write_then_read_witness :
    (test_trust_levels storeAdminOnly).store.pwdRows.filter
        (fun r => r.drive_id == "usb_sde1") = [mkPwdRecord testDriveId testNow] :=
  (pwd_write_then_read storeAdminOnly rfl rfl (by decide)).1

/-- C2: for every well-formed store state (SQLite enforces the trust table's
uniqueness constraints, so every reachable state is well-formed), inserting
the verifier's TrustRecord `trust_usb_sde1` and then inserting again with a
later `updated_at` leaves exactly one row with that id, carrying the later
value; and afterwards at most one trust record exists per
`(user_id, drive_id)` pair. -/
theorem trust_upsert_idempotent (s : Store) (now1 now2 : String)
    (hwf : TrustWF s.trustRows) (h12 : timeLt now1 now2 = true) :
    (upsertTrust (upsertTrust s.trustRows (mkTrustRecord testDriveId now1))
        (mkTrustRecord testDriveId now2)).filter (fun q => q.id == "trust_usb_sde1")
      = [mkTrustRecord testDriveId now2]
    ∧ ((upsertTrust (upsertTrust s.trustRows (mkTrustRecord testDriveId now1))
        (mkTrustRecord testDriveId now2)).filter (fun q => q.id == "trust_usb_sde1")).length = 1
    ∧ (mkTrustRecord testDriveId now2).updated_at = now2
    ∧ TrustWF (upsertTrust (upsertTrust s.trustRows (mkTrustRecord testDriveId now1))
        (mkTrustRecord testDriveId now2)) := by
  have h1 := upsertTrust_filter_id
    (upsertTrust s.trustRows (mkTrustRecord testDriveId now1)) (mkTrustRecord testDriveId now2)
  have hid : (fun (q : TrustRow) => q.id == (mkTrustRecord testDriveId now2).id)
      = (fun q => q.id == "trust_usb_sde1") := rfl
  rw [hid] at h1
  rw [h1]
  exact ⟨rfl, rfl, rfl, trustWF_upsert (trustWF_upsert hwf _) _⟩

/-- Witness for C2: on a store holding one unrelated trust row, re-inserting
`trust_usb_sde1` with a later timestamp leaves exactly the later record under
that id. -/
theorem trust_upsert_idempotent_witness :
    (upsertTrust (upsertTrust storeFresh.trustRows (mkTrustRecord testDriveId "2025-09-01T15:54:00Z"))
        (mkTrustRecord testDriveId "2025-09-02T00:00:00Z")).filter
        (fun q => q.id == "trust_usb_sde1")
      = [mkTrustRecord testDriveId "2025-09-02T00:00:00Z"] :=
  (trust_upsert_idempotent storeFresh "2025-09-01T15:54:00Z" "2025-09-02T00:00:00Z"
    (List.pairwise_singleton _ _) (by decide)).1

/-- Counterexample for C4: in a store already holding the verifier's trust
record, the insert-or-replace replaces rather than adds, so `COUNT(*)` on
`usb_drive_trust` does not increase by one. -/
theorem count_cex :
    ¬ ((test_trust_levels storePreseeded).store.trustRows.length
        = storePreseeded.trustRows.length + 1) := by
  decide

/-- C4 as amended: for every store state in which both tables exist and
neither table holds a row conflicting with the verifier's records (on `id` or
on the `(user_id, drive_id)` pair), after the verifier inserts one TrustRecord
and one PasswordRecord for the same drive, `COUNT(*)` on `usb_drive_trust`
and on `usb_drive_passwords` each equal their pre-operation values plus one;
with a conflicting row the count is unchanged (replacement). -/
theorem count_increment (s : Store) (ht : s.hasTrustTable = true)
    (hp : s.hasPwdTable = true)
    (hT : ∀ q ∈ s.trustRows, trustConflict q (mkTrustRecord testDriveId testNow) = false)
    (hP : ∀ q ∈ s.pwdRows, pwdConflict q (mkPwdRecord testDriveId testNow) = false) :
    (test_trust_levels s).store.trustRows.length = s.trustRows.length + 1
    ∧ (test_trust_levels s).store.pwdRows.length = s.pwdRows.length + 1 := by
  have hrowsT : (test_trust_levels s).store.trustRows
      = upsertTrust s.trustRows (mkTrustRecord testDriveId testNow) := by
    simp [test_trust_levels, ht, hp]
  have hrowsP : (test_trust_levels s).store.pwdRows
      = upsertPwd s.pwdRows (mkPwdRecord testDriveId testNow) := by
    simp [test_trust_levels, ht, hp]
  have hfT : s.trustRows.filter
      (fun q => !trustConflict q (mkTrustRecord testDriveId testNow)) = s.trustRows :=
    List.filter_eq_self.mpr (fun a ha => by rw [hT a ha]; rfl)
  have hfP : s.pwdRows.filter
      (fun q => !pwdConflict q (mkPwdRecord testDriveId testNow)) = s.pwdRows :=
    List.filter_eq_self.mpr (fun a ha => by rw [hP a ha]; rfl)
  constructor
  · rw [hrowsT]; unfold upsertTrust; rw [hfT]; simp
  · rw [hrowsP]; unfold upsertPwd; rw [hfP]; simp

/-- Witness for C4 (amended): on a store with one unrelated trust row and no
password rows, the verifier's run raises both counts by exactly one. -/
theorem count_increment_witness :
    (test_trust_levels storeFresh).store.trustRows.length
        = storeFresh.trustRows.length + 1
    ∧ (test_trust_levels storeFresh).store.pwdRows.length
        = storeFresh.pwdRows.length + 1 :=
  count_increment storeFresh rfl rfl (by decide) (by decide)

/-- Counterexample for C5: when the verifier's trust insert fails (missing
`usb_drive_trust` table), the password table's check is never attempted — the
single `except` clause aborts the whole run, not just that table's check. -/
theorem single_failure_skips_other_table_cex :
    TOp.insertPwd ∉ (test_trust_levels storeNoTrustTable).trace
    ∧ (test_trust_levels storeNoTrustTable).output
        = [TOut.opFailed "no such table: usb_drive_trust"] := by
  decide

/-- C5 as amended: any failure during the verifier's insert, commit, or
verification read aborts all remaining steps of the run — including the other
table's check and the count report — and is reported as a single failed
operation; the connection is still closed. -/
theorem failure_aborts_whole_run (s : Store) :
    (s.hasTrustTable = false →
      (test_trust_levels s).trace = [TOp.insertTrust]
      ∧ (test_trust_levels s).output = [TOut.opFailed "no such table: usb_drive_trust"]
      ∧ (test_trust_levels s).store = s
      ∧ (test_trust_levels s).connClosed = true)
    ∧ (s.hasTrustTable = true → s.hasPwdTable = false →
      (test_trust_levels s).trace = [TOp.insertTrust, TOp.selectTrust, TOp.insertPwd]
      ∧ (test_trust_levels s).store.pwdRows = s.pwdRows
      ∧ (test_trust_levels s).connClosed = true) := by
  constructor
  · intro h
    simp [test_trust_levels, h]
  · intro h1 h2
    simp [test_trust_levels, h1, h2]

/-- Witness for C5 (amended): on the store lacking `usb_drive_trust`, the
trace stops at the failing insert. -/
theorem failure_aborts_whole_run_witness :
    (test_trust_levels storeNoTrustTable).trace = [TOp.insertTrust] :=
  ((failure_aborts_whole_run storeNoTrustTable).1 rfl).1

/-- Counterexample for C6: on a store whose `users` table is missing, the
inspector reports a database error and returns without closing its
connection — `conn.close()` sits inside the `try` block. -/
theorem inspector_conn_leak_cex :
    (check_database storeNoUsersTable).connClosed = false
    ∧ COut.dbError "no such table: users" ∈ (check_database storeNoUsersTable).output := by
  decide

/-- C6 as amended: the upsert verifier always closes its connection (its
close is in a `finally` clause); the inspector closes its connection exactly
when no store-level failure occurs — after a failure (missing `users` table)
it returns with the connection still open. -/
theorem conn_close_behavior (s : Store) :
    (test_trust_levels s).connClosed = true
    ∧ (check_database s).connClosed = s.hasUsersTable := by
  constructor
  · cases ht : s.hasTrustTable <;> cases hp : s.hasPwdTable <;>
      simp [test_trust_levels, ht, hp]
  · cases hu : s.hasUsersTable <;> simp [check_database, hu]

/-- Counterexample for C3: on a store containing `users` and
`usb_drive_passwords` but not `usb_drive_trust`, the inspector's report does
not state that `usb_drive_trust` is absent (it never even queries the catalog
for that table) and enumerates no table list at all. -/
theorem schema_report_cex :
    ((check_database storeNoTrustTable).output.filter isAvailTableOut) = []
    ∧ CQuery.catalogLookup "usb_drive_trust" ∉ (check_database storeNoTrustTable).trace := by
  decide

/-- C3 as amended: the inspector catalog-checks only `usb_drive_passwords`,
as its very first store query; it never queries the catalog for
`usb_drive_trust`, and it data-queries `users` without any existence check;
only when `usb_drive_passwords` is absent does it enumerate the tables
present — and then the enumerated list is exactly the store's tables. -/
theorem schema_report_behavior (s : Store) :
    ((check_database s).trace.filter isCatalogLookupQ)
        = [CQuery.catalogLookup "usb_drive_passwords"]
    ∧ (check_database s).trace.head? = some (CQuery.catalogLookup "usb_drive_passwords")
    ∧ CQuery.catalogLookup "usb_drive_trust" ∉ (check_database s).trace
    ∧ CQuery.catalogLookup "users" ∉ (check_database s).trace
    ∧ (s.hasPwdTable = false →
        (check_database s).output.filter isAvailTableOut
          = s.tables.map COut.availableTable) := by
  cases hp : s.hasPwdTable <;> cases hu : s.hasUsersTable <;>
    by_cases hn : s.pwdRows.length > 0 <;>
    simp [check_database, hp, hu, hn, isCatalogLookupQ, isAvailTableOut,
      List.filter_append, filter_avail_map_avail, filter_avail_map_sample,
      filter_avail_map_entry] <;>
    (intro a ha
     obtain ⟨u, -, rfl⟩ := List.mem_map.mp (List.take_subset 3 _ ha)
     rfl)

/-- Witness for C3 (amended): on a store lacking `usb_drive_passwords`, the
enumerated table list is exactly the store's tables. -/
theorem schema_report_behavior_witness :
    (check_database storeNoPwdTable).output.filter isAvailTableOut
      = storeNoPwdTable.tables.map COut.availableTable :=
  (schema_report_behavior storeNoPwdTable).2.2.2.2 rfl

/-- C10: the inspector's report does not depend on stored ciphertext — two
stores identical except for the `encrypted_password` column produce identical
runs (the sampled-rows query selects the eight non-ciphertext columns only). -/
theorem inspector_cipher_independent (s1 s2 : Store) (h : SameExceptCipher s1 s2) :
    check_database s1 = check_database s2 := by
  obtain ⟨h1, h2, h3, h4, h5, h6, h7⟩ := h
  have hlen : s1.pwdRows.length = s2.pwdRows.length := h7.length_eq
  have hmap : s1.pwdRows.map projectPwd = s2.pwdRows.map projectPwd := map_projectPwd_eq h7
  have htab : s1.tables = s2.tables := by
    simp [Store.tables, h1, h2, h3, h6]
  simp only [check_database, h2, h3, h5, htab, hlen, hmap]

/-- Witness for C10: two concrete stores differing only in the stored
ciphertext value produce identical inspector runs. -/
theorem inspector_cipher_independent_witness :
    check_database storeCipherA = check_database storeCipherB :=
  inspector_cipher_independent storeCipherA storeCipherB
    ⟨rfl, rfl, rfl, rfl, rfl, rfl, List.Forall₂.cons rfl List.Forall₂.nil⟩

end ZapVault
